import Mathlib

/-!
Verification of `unified_platform_ultimate.py` (AI agent platform, V13.0).

Shallow embedding of the persistence layer, the quota logic, the tool
registry with its three capabilities, and the agent runtime `run_agent_turn`
(the ReAct-style turn executor).  External boundaries are modelled as opaque
oracles passed in explicitly:

* `json.loads` is a parameter `parse : String → Option Json` (`none` models a
  raised `JSONDecodeError`);
* `requests.request` is a parameter `http : HttpRequest → Except String (Nat × String)`
  (`Except.error e` models a raised exception whose `str` is `e`);
* the OpenAI chat-completions endpoint is a parameter
  `llm : Nat → List ChatMsg → Option (List String) → Except String ModelResponse`,
  indexed by the position of the call inside one turn;
* `datetime.now()` / `hashlib.md5(...)` are parameters `now` / `freshId`
  (wall-clock strings and the generated agent id never influence control flow).

Python exceptions are modelled with `Except String`; `sqlite3` rows are plain
Lean structures and the three tables a `DB` record.  Timestamp columns are
modelled as `""` since no code path reads them.
-/

namespace Platform

/-- JSON values as returned by the (opaque) `json.loads` boundary. -/
inductive Json where
  | null : Json
  | bool (b : Bool) : Json
  | num (n : Int) : Json
  | str (s : String) : Json
  | arr (elems : List Json) : Json
  | obj (fields : List (String × Json)) : Json

/-- Row of the `users` table (`init_db`, line 96). -/
structure UserRow where
  email : String
  plan : String
  agents_created : Nat
  joined_at : String
  is_approved : Bool
deriving DecidableEq

/-- Agent configuration dictionary (`cfg` in `execute_create_new_agent`,
lines 243-251; also the literal `builder_agent` dict).  `secrets` models the
optional `secrets` key attached by `get_user_agents` (`""` = absent), and
`id` the optional `id` key (`""` = absent, Python falsy). -/
structure AgentConfig where
  id : String
  name : String
  personality : String
  goal : String
  enabled_tools : List String
  model : String
  temperature : Rat
  icon : String
  secrets : String
deriving DecidableEq

/-- Row of the `agents` table (`init_db`, line 99). -/
structure AgentRow where
  id : String
  creator : String
  name : String
  config : AgentConfig
  created_at : String
  secrets : String
deriving DecidableEq

/-- Row of the `messages` table (`init_db`, line 102).  `id` models the
`AUTOINCREMENT` primary key. -/
structure MessageRow where
  id : Nat
  agent_id : String
  user_email : String
  role : String
  content : String
  timestamp : String
deriving DecidableEq

/-- The sqlite database `agents_platform_v13.db`: the three tables. -/
structure DB where
  users : List UserRow
  agents : List AgentRow
  messages : List MessageRow
deriving DecidableEq

/-- Limits of one plan tier (`PLAN_LIMITS` values, lines 40-44). -/
structure PlanLimit where
  agents : Nat
  messages : Nat
deriving DecidableEq

/-- Does the list start with the given pattern. -/
def listStartsWith : List Char → List Char → Bool
  | _, [] => true
  | [], _ :: _ => false
  | c :: cs, p :: ps => c == p && listStartsWith cs ps

/-- Fueled worker for `pyReplace`; the fuel is the input length, which bounds
the number of steps since every step consumes at least one character (the
source never replaces an empty pattern). -/
def pyReplaceAux (old new : List Char) : Nat → List Char → List Char
  | 0, s => s
  | _, [] => []
  | fuel + 1, c :: cs =>
    if listStartsWith (c :: cs) old then
      new ++ pyReplaceAux old new fuel ((c :: cs).drop old.length)
    else
      c :: pyReplaceAux old new fuel cs

/-- Python `str.replace`: every non-overlapping occurrence of `old`, scanned
left to right, becomes `new`. -/
def pyReplace (s old new : String) : String :=
  String.mk (pyReplaceAux old.data new.data s.data.length s.data)

/-- Whitespace as stripped by Python `str.strip()` (the whitespace kinds that
can occur in this program's strings). -/
def pyIsSpace (c : Char) : Bool := c == ' ' || c == '\t' || c == '\n' || c == '\r'

/-- Python `str.strip()`: leading and trailing whitespace removed. -/
def pyStrip (s : String) : String :=
  String.mk (((s.data.dropWhile pyIsSpace).reverse.dropWhile pyIsSpace).reverse)

/-- Worker for `pySplit` on one separator character. -/
def pySplitChar (sep : Char) : List Char → List (List Char)
  | [] => [[]]
  | c :: cs =>
    match pySplitChar sep cs with
    | [] => [[]]
    | g :: gs => if c == sep then [] :: g :: gs else (c :: g) :: gs

/-- Python `str.split(sep)` for a one-character separator (the source only
splits on `","`). -/
def pySplit (s : String) (sep : Char) : List String :=
  (pySplitChar sep s.data).map String.mk

/-- Limits of the `free` tier, the fallback of `PLAN_LIMITS.get` (line 144). -/
def free_limits : PlanLimit := { agents := 1, messages := 50 }

/-- `PLAN_LIMITS` (lines 40-44). -/
def PLAN_LIMITS : List (String × PlanLimit) :=
  [("free", free_limits),
   ("pro", { agents := 10, messages := 1000 }),
   ("vip", { agents := 99999, messages := 99999 })]

/-- `safe_json_loads` (lines 113-131), relative to the opaque `json.loads`
boundary `parse` (`none` = `JSONDecodeError`).  The Python `isinstance(.., dict)`
short-circuit is outside this embedding because the argument type here is
`String`.  Totality of the Lean function models the documented guarantee that
the Python function never raises on string input: `json.loads` applied to a
`str` raises only `JSONDecodeError`, and every parse attempt is wrapped in a
handler that catches it. -/
def safe_json_loads (parse : String → Option Json) (json_str : String) : Json :=
  if json_str = "" then Json.obj []
  else
    match parse json_str with
    | some v => v
    | none =>
      match parse (pyReplace json_str "\x27" "\x22") with
      | some v => v
      | none =>
        let clean_str := pyStrip (pyReplace (pyReplace json_str "```json" "") "```" "")
        match parse clean_str with
        | some v => v
        | none => Json.obj []

/-- Result dictionary of `get_user_status` (line 139). -/
structure UserStatus where
  plan : String
  is_approved : Bool
  agents_used : Nat
  msgs_used : Nat
deriving DecidableEq

/-- `get_user_status` (lines 133-139). -/
def get_user_status (db : DB) (email : String) : Option UserStatus :=
  match db.users.find? (fun u => u.email == email) with
  | none => none
  | some u =>
    let msg_count :=
      (db.messages.filter (fun m => m.user_email == email && m.role == "user")).length
    some { plan := u.plan, is_approved := u.is_approved,
           agents_used := u.agents_created, msgs_used := msg_count }

/-- `check_limits` (lines 141-150). -/
def check_limits (db : DB) (email : String) (action_type : String) : Bool × String :=
  match get_user_status db email with
  | none => (false, "User not found")
  | some status =>
    let limits := (PLAN_LIMITS.lookup status.plan).getD free_limits
    if action_type = "create_agent" ∧ limits.agents ≤ status.agents_used then
      (false, "הגעת למגבלת הסוכנים (" ++ toString limits.agents ++ "). שדרג חבילה.")
    else if action_type = "send_message" ∧ limits.messages ≤ status.msgs_used then
      (false, "הגעת למגבלת ההודעות (" ++ toString limits.messages ++ "). שדרג חבילה.")
    else (true, "OK")

/-- Names registered in `ToolRegistry.REGISTRY` (line 266), in dict order. -/
def REGISTRY_KEYS : List String :=
  ["get_current_time", "make_http_request", "create_new_agent"]

/-- Names of the entries of `ToolRegistry.SCHEMAS` (line 267), in list order. -/
def SCHEMA_NAMES : List String :=
  ["get_current_time", "make_http_request", "create_new_agent"]

/-- Argument record of one `requests.request(method, url, headers=h, json=d,
timeout=15)` call (line 216). -/
structure HttpRequest where
  method : String
  url : String
  headers : Json
  data : Json
  timeout : Nat

/-- The single request that `execute_http_request` issues (line 216): headers
and body are first run through `safe_json_loads`, the timeout is the literal
`15`. -/
def the_http_request (parse : String → Option Json)
    (url method headers data : String) : HttpRequest :=
  { method := method, url := url,
    headers := safe_json_loads parse headers,
    data := safe_json_loads parse data,
    timeout := 15 }

/-- `ToolRegistry.execute_http_request` (lines 210-220).  `http` is the opaque
`requests.request` boundary; `Except.error e` models any raised exception with
`str(e) = e`, which the function-level `try` converts into the observation
string `"HTTP Request Error: " ++ e`.  A successful response is rendered with
its body truncated to 1500 characters (`resp.text[:1500]`). -/
def execute_http_request (http : HttpRequest → Except String (Nat × String))
    (parse : String → Option Json) (url method headers data : String) : String :=
  match http (the_http_request parse url method headers data) with
  | Except.ok (status_code, text) =>
      "HTTP Status: " ++ toString status_code ++ "\nResponse Body: " ++ text.take 1500
  | Except.error e => "HTTP Request Error: " ++ e

/-- Hardened persona wrapper built by `execute_create_new_agent`
(lines 230-241); the f-string including its literal indentation. -/
def hardened_personality (personality : String) : String :=
  "\n        " ++ personality ++
  "\n        \n        [SYSTEM OVERRIDE - EXECUTION RULES]:\n        1. You are NOT a conversationalist. You are a FUNCTION CALLING ENGINE.\n        2. Your PRIORITY #1 is to use the available tools (`make_http_request`, `get_current_time`).\n        3. IF the user asks for time/date -> YOU MUST USE `get_current_time`. DO NOT ARGUE.\n        4. IF the user asks to check external data -> YOU MUST USE `make_http_request`.\n        5. DO NOT describe what you *would* do. JUST DO IT (Emit the tool call).\n        6. Only after the tool provides a result, you may speak to the user.\n        7. NEVER refuse a request because \x22it\x27s not my job\x22. If you have the tool, USE IT.\n        "

/-- `save_agent_to_db` (lines 270-279).  `freshId` stands for the
`hashlib.md5(name + now)` hex digest used when the config carries no id;
`INSERT OR REPLACE` on the primary key is modelled by dropping any row with
the same id before appending; the `UPDATE users` statement increments
`agents_created` for the creator unconditionally.  Returns the new db and the
agent id. -/
def save_agent_to_db (db : DB) (agent_data : AgentConfig) (creator : String)
    (secrets_json : String) (freshId : String) : DB × String :=
  let aid := if agent_data.id ≠ "" then agent_data.id else freshId
  let agent_data := { agent_data with id := aid }
  let row : AgentRow :=
    { id := aid, creator := creator, name := agent_data.name,
      config := agent_data, created_at := "", secrets := secrets_json }
  ({ users := db.users.map (fun u =>
        if u.email == creator then { u with agents_created := u.agents_created + 1 } else u),
     agents := db.agents.filter (fun a => a.id != aid) ++ [row],
     messages := db.messages }, aid)

/-- `ToolRegistry.execute_create_new_agent` (lines 222-254).  Note that the
Python function returns on line 254, so lines 256-263 (second save, welcome
message) are dead code and are not part of the embedding.  The empty-string
defaults for `tools_needed` / `api_secrets` are supplied by the keyword
binder `call_create_new_agent` below, mirroring Python call-time binding. -/
def execute_create_new_agent (db : DB) (freshId : String)
    (name personality goal creator_email tools_needed api_secrets : String) :
    DB × String :=
  let checked := check_limits db creator_email "create_agent"
  if !checked.1 then (db, "ERROR: " ++ checked.2)
  else
    let tools := if tools_needed ≠ "" then (pySplit tools_needed ',').map (fun t => pyStrip t) else []
    let cfg : AgentConfig :=
      { id := "", name := name, personality := hardened_personality personality,
        goal := goal, enabled_tools := tools, model := "gpt-4o-mini",
        temperature := (7 : Rat) / 10, icon := "⚡", secrets := "" }
    let saved := save_agent_to_db db cfg creator_email api_secrets freshId
    (saved.1, "SUCCESS: Agent \x27" ++ name ++ "\x27 created with EXECUTION PROTOCOLS.")

/-- Python `f(**args)` kwargs expansion: the argument value must be a mapping,
otherwise a `TypeError` is raised before the callee runs. -/
def asKwargs (fname : String) (args : Json) : Except String (List (String × Json)) :=
  match args with
  | Json.obj fields => Except.ok fields
  | _ => Except.error (fname ++ "() argument after ** must be a mapping")

/-- Binding of one required keyword parameter: absence raises `TypeError`
before the callee body runs.  The embedding fixes argument values to JSON
strings (every handler parameter of this program is used as a string); a
non-string value is modelled as a binding error. -/
def requiredStr (fname field : String) (fields : List (String × Json)) :
    Except String String :=
  match fields.lookup field with
  | none => Except.error (fname ++ "() missing 1 required positional argument: " ++ field)
  | some (Json.str s) => Except.ok s
  | some _ => Except.error (fname ++ "() non-string value for argument: " ++ field)

/-- Binding of one keyword parameter carrying a default value. -/
def optionalStr (fname field dflt : String) (fields : List (String × Json)) :
    Except String String :=
  match fields.lookup field with
  | none => Except.ok dflt
  | some (Json.str s) => Except.ok s
  | some _ => Except.error (fname ++ "() non-string value for argument: " ++ field)

/-- Call-time binding for `execute_get_current_time(**kwargs)` (lines 205-207):
any mapping is accepted and the current server time string is returned. -/
def call_get_current_time (now : String) (args : Json) : Except String String :=
  match asKwargs "execute_get_current_time" args with
  | Except.error e => Except.error e
  | Except.ok _ => Except.ok now

/-- Call-time binding for `execute_http_request(**args)` (line 210's signature:
`url` required, `method`/`headers`/`data` defaulted, extras swallowed by
`**kwargs`). -/
def call_make_http_request (http : HttpRequest → Except String (Nat × String))
    (parse : String → Option Json) (args : Json) : Except String String :=
  match asKwargs "execute_http_request" args with
  | Except.error e => Except.error e
  | Except.ok fields =>
    match requiredStr "execute_http_request" "url" fields with
    | Except.error e => Except.error e
    | Except.ok url =>
      match optionalStr "execute_http_request" "method" "GET" fields with
      | Except.error e => Except.error e
      | Except.ok method =>
        match optionalStr "execute_http_request" "headers" "\x7b\x7d" fields with
        | Except.error e => Except.error e
        | Except.ok headers =>
          match optionalStr "execute_http_request" "data" "\x7b\x7d" fields with
          | Except.error e => Except.error e
          | Except.ok data =>
            Except.ok (execute_http_request http parse url method headers data)

/-- Call-time binding for
`execute_create_new_agent(**args, creator_email=user_email)` (line 352):
`name`/`personality`/`goal` required, `tools_needed`/`api_secrets` defaulted,
and a `creator_email` key inside `args` would collide with the explicit
keyword argument (`TypeError: multiple values`). -/
def call_create_new_agent (freshId : String) (db : DB) (args : Json)
    (user_email : String) : Except String (DB × String) :=
  match asKwargs "execute_create_new_agent" args with
  | Except.error e => Except.error e
  | Except.ok fields =>
    match fields.lookup "creator_email" with
    | some _ => Except.error "execute_create_new_agent() got multiple values for argument creator_email"
    | none =>
      match requiredStr "execute_create_new_agent" "name" fields with
      | Except.error e => Except.error e
      | Except.ok name =>
        match requiredStr "execute_create_new_agent" "personality" fields with
        | Except.error e => Except.error e
        | Except.ok personality =>
          match requiredStr "execute_create_new_agent" "goal" fields with
          | Except.error e => Except.error e
          | Except.ok goal =>
            match optionalStr "execute_create_new_agent" "tools_needed" "" fields with
            | Except.error e => Except.error e
            | Except.ok tools_needed =>
              match optionalStr "execute_create_new_agent" "api_secrets" "\x7b\x7d" fields with
              | Except.error e => Except.error e
              | Except.ok api_secrets =>
                Except.ok (execute_create_new_agent db freshId name personality goal
                  user_email tools_needed api_secrets)

/-- One tool invocation requested by the model (`msg.tool_calls[i]`):
`id`, function name and the raw JSON argument string. -/
structure ToolCall where
  id : String
  name : String
  arguments : String
deriving DecidableEq

/-- One transcript entry as handed to the chat-completions endpoint: the
dictionaries of line 326, the tool-observation dictionaries of line 362
(which carry `tool_call_id`), and the appended assistant-intent message of
line 343 (which carries `tool_calls`). -/
structure ChatMsg where
  role : String
  content : String
  tool_call_id : Option String
  tool_calls : List ToolCall
deriving DecidableEq

/-- The message of one chat-completion response
(`response.choices[0].message`). -/
structure ModelResponse where
  content : String
  tool_calls : List ToolCall
deriving DecidableEq

/-- Opaque boundaries one turn runs against: `requests.request`, `json.loads`,
`datetime.now()` rendering, and the md5-based fresh agent id. -/
structure Env where
  http : HttpRequest → Except String (Nat × String)
  parse : String → Option Json
  now : String
  freshId : String

/-- `log_message` (lines 292-297): one `INSERT` plus `commit`; the
`AUTOINCREMENT` id is modelled as one past the current row count. -/
def log_message (db : DB) (agent_id user_email role content : String) : DB :=
  { db with messages := db.messages ++
      [{ id := db.messages.length + 1, agent_id := agent_id,
         user_email := user_email, role := role, content := content,
         timestamp := "" }] }

/-- `load_chat_history` (lines 299-303): all rows of the agent, in id order
(rows are only ever appended with increasing ids, so filtering the log keeps
`ORDER BY id ASC`). -/
def load_chat_history (db : DB) (agent_id : String) : List ChatMsg :=
  (db.messages.filter (fun m => m.agent_id == agent_id)).map
    (fun m => { role := m.role, content := m.content, tool_call_id := none, tool_calls := [] })

/-- Secrets injection (lines 321-324): non-empty and different from `"{}"`. -/
def secrets_context (agent_config : AgentConfig) : String :=
  if agent_config.secrets ≠ "" ∧ agent_config.secrets ≠ "\x7b\x7d" then
    "\n\n[SECURE CONTEXT]: The following API KEYS are available for use in \x27make_http_request\x27:\n"
      ++ agent_config.secrets
  else ""

/-- Context assembly of line 326: one system message (persona, goal, secrets),
the entire `history` argument, then the new user message.  The source applies
no windowing or truncation to `history`. -/
def build_context (agent_config : AgentConfig) (history : List ChatMsg)
    (user_msg : String) : List ChatMsg :=
  [{ role := "system",
     content := agent_config.personality ++ "\nGoal: " ++ agent_config.goal
       ++ secrets_context agent_config,
     tool_call_id := none, tool_calls := [] }]
  ++ history
  ++ [{ role := "user", content := user_msg, tool_call_id := none, tool_calls := [] }]

/-- Tool offer computation (lines 317-319): schemas filtered by the agent's
`enabled_tools`, and `None` when the filter is empty.  The embedding keeps
the schema names. -/
def active_tools_arg (agent_config : AgentConfig) : Option (List String) :=
  let active_schemas := SCHEMA_NAMES.filter (fun n => agent_config.enabled_tools.contains n)
  if active_schemas.isEmpty then none else some active_schemas

/-- The assistant message appended on line 343 (`messages.append(msg)`). -/
def intent_message (m : ModelResponse) : ChatMsg :=
  { role := "assistant", content := m.content, tool_call_id := none,
    tool_calls := m.tool_calls }

/-- Tool-name dispatch of lines 351-356: the `create_new_agent` special case
(which adds `creator_email`), then the `REGISTRY` lookup, then the
`"Error: Tool not found"` fallback.  An `Except.error` is a raised Python
exception escaping the dispatch (the handlers themselves only raise at
argument binding; their bodies return strings). -/
def dispatch_tool (env : Env) (db : DB) (func_name : String) (args : Json)
    (user_email : String) : Except String (DB × String) :=
  if func_name = "create_new_agent" then
    call_create_new_agent env.freshId db args user_email
  else if REGISTRY_KEYS.contains func_name then
    if func_name = "get_current_time" then
      (call_get_current_time env.now args).map (fun r => (db, r))
    else
      (call_make_http_request env.http env.parse args).map (fun r => (db, r))
  else
    Except.ok (db, "Error: Tool not found")

/-- The `for tool in msg.tool_calls` loop (lines 345-362): sequential dispatch,
each observation appended to the transcript as a tool-role entry.  An error
carries the database state at the raise point (sqlite commits per statement,
so earlier side effects persist). -/
def run_tools (env : Env) (user_email : String) :
    DB → List ChatMsg → List ToolCall → Except (DB × String) (DB × List ChatMsg)
  | db, messages, [] => Except.ok (db, messages)
  | db, messages, tool :: rest =>
    match dispatch_tool env db tool.name (safe_json_loads env.parse tool.arguments) user_email with
    | Except.error e => Except.error (db, e)
    | Except.ok (db', result) =>
      run_tools env user_email db'
        (messages ++ [{ role := "tool", content := result,
                        tool_call_id := some tool.id, tool_calls := [] }]) rest

/-- `run_agent_turn` (lines 306-376): quota gate, user-message persistence,
first model call, optional tool phase with a second model call, assistant
persistence, with the whole post-persistence body wrapped in
`try ... except` returning `"System Critical Error: " ++ str(e)`.  `llm k`
is the opaque chat-completions boundary for the k-th call of the turn; its
`Option (List String)` argument is the tool offer (`None` or the active
schema names).  Returns the final database and the returned reply string. -/
def run_agent_turn
    (llm : Nat → List ChatMsg → Option (List String) → Except String ModelResponse)
    (env : Env) (db : DB) (agent_config : AgentConfig) (history : List ChatMsg)
    (user_msg user_email agent_id : String) : DB × String :=
  let checked := check_limits db user_email "send_message"
  if !checked.1 then (db, checked.2)
  else
    let db1 := log_message db agent_id user_email "user" user_msg
    let messages := build_context agent_config history user_msg
    match llm 0 messages (active_tools_arg agent_config) with
    | Except.error e => (db1, "System Critical Error: " ++ e)
    | Except.ok m =>
      match m.tool_calls with
      | [] => (log_message db1 agent_id user_email "assistant" m.content, m.content)
      | tc :: rest =>
        let messages1 := messages ++ [intent_message m]
        match run_tools env user_email db1 messages1 (tc :: rest) with
        | Except.error (db2, e) => (db2, "System Critical Error: " ++ e)
        | Except.ok (db2, messages2) =>
          match llm 1 messages2 none with
          | Except.error e => (db2, "System Critical Error: " ++ e)
          | Except.ok final =>
            (log_message db2 agent_id user_email "assistant" final.content, final.content)

/-- Number of persisted rows of one agent with one role (observer used by the
persistence theorems). -/
def count_role (db : DB) (agent_id role : String) : Nat :=
  (db.messages.filter (fun m => m.agent_id == agent_id && m.role == role)).length

/-! Concrete fixtures used by witnesses and counterexamples. -/

/-- Deterministic stand-in for the `json.loads` boundary: parses the two
concrete argument strings the closed scenarios use. -/
def parse0 : String → Option Json := fun s =>
  if s = "\x7b\x7d" then some (Json.obj [])
  else if s = "\x7b\x22url\x22: \x22http://unreachable.example\x22\x7d" then
    some (Json.obj [("url", Json.str "http://unreachable.example")])
  else none

/-- Environment whose network boundary always raises (unreachable target). -/
def env0 : Env :=
  { http := fun _ => Except.error "Connection refused",
    parse := parse0, now := "2024-06-01 12:00:00", freshId := "a1b2c3d4e5" }

/-- Approved free-tier user with no agents yet. -/
def user0 : UserRow :=
  { email := "u@example.com", plan := "free", agents_created := 0,
    joined_at := "", is_approved := true }

/-- Database holding only `user0`. -/
def db0 : DB := { users := [user0], agents := [], messages := [] }

/-- Database whose free-tier user already owns 1 agent (the tier limit). -/
def db_free_full : DB :=
  { users := [{ user0 with agents_created := 1 }], agents := [], messages := [] }

/-- Agent configuration used by the closed scenarios. -/
def cfg0 : AgentConfig :=
  { id := "A1", name := "Helper", personality := "You are helpful.",
    goal := "Assist", enabled_tools := ["get_current_time", "make_http_request"],
    model := "gpt-4o-mini", temperature := (7 : Rat) / 10, icon := "🤖",
    secrets := "" }

/-- Database persisting 25 messages for agent `A1`. -/
def db25 : DB :=
  { users := [user0], agents := [],
    messages := (List.range 25).map (fun i =>
      { id := i + 1, agent_id := "A1", user_email := "u@example.com",
        role := if i % 2 = 0 then "user" else "assistant",
        content := "m" ++ toString i, timestamp := "" }) }

/-! Theorems. -/

/-- C10.  `safe_json_loads` is total (it is a Lean function) and follows the
documented fallback chain: empty input gives the empty dict; a successful
parse is returned as-is; otherwise the parse is retried on the input with
single quotes replaced by double quotes; otherwise on the input with markdown
fences stripped; and when every parse fails the empty dict is returned. -/
theorem safe_json_loads_fallback_chain (parse : String → Option Json) (s : String) :
    (s = "" → safe_json_loads parse s = Json.obj []) ∧
    (s ≠ "" → ∀ v, parse s = some v → safe_json_loads parse s = v) ∧
    (s ≠ "" → parse s = none →
      ∀ v, parse (pyReplace s "\x27" "\x22") = some v → safe_json_loads parse s = v) ∧
    (s ≠ "" → parse s = none → parse (pyReplace s "\x27" "\x22") = none →
      ∀ v, parse (pyStrip (pyReplace (pyReplace s "```json" "") "```" "")) = some v →
        safe_json_loads parse s = v) ∧
    (s ≠ "" → parse s = none → parse (pyReplace s "\x27" "\x22") = none →
      parse (pyStrip (pyReplace (pyReplace s "```json" "") "```" "")) = none →
        safe_json_loads parse s = Json.obj []) := by
  refine ⟨?_, ?_, ?_, ?_, ?_⟩ <;> intros <;> simp [safe_json_loads, *]

/-- Witness for C10: a parser that accepts exactly one concrete document;
the parsed value is returned on that document and the empty dict on a
document every parse attempt rejects. -/
theorem safe_json_loads_fallback_chain_witness :
    safe_json_loads parse0 "\x7b\x7d" = Json.obj [] ∧
    safe_json_loads parse0 "not json at all" = Json.obj [] := by
  constructor
  · exact (safe_json_loads_fallback_chain parse0 "\x7b\x7d").2.1 (by decide)
      (Json.obj []) rfl
  · exact (safe_json_loads_fallback_chain parse0 "not json at all").2.2.2.2
      (by decide) rfl rfl rfl

/-- Observer: does `pat` occur anywhere in `s` as a substring. -/
def containsSubstring (s pat : String) : Bool :=
  (List.range (s.data.length + 1)).any (fun i => listStartsWith (s.data.drop i) pat.data)

/-- C7.  Dispatching any tool name outside `ToolRegistry.REGISTRY` returns the
`"Error: Tool not found"` observation, leaves the database untouched, and —
since the result is this fixed constant — invokes no handler. -/
theorem dispatch_unknown_tool (env : Env) (db : DB) (name : String) (args : Json)
    (user_email : String) (h : REGISTRY_KEYS.contains name = false) :
    dispatch_tool env db name args user_email = Except.ok (db, "Error: Tool not found") := by
  have hne : name ≠ "create_new_agent" := by
    intro he
    subst he
    exact absurd h (by decide)
  have hmem : name ∉ REGISTRY_KEYS := by simpa using h
  simp [dispatch_tool, hne, hmem]

/-- Witness for C7 at a concrete unregistered name. -/
theorem dispatch_unknown_tool_witness :
    dispatch_tool env0 db0 "totally_unknown_tool" (Json.obj []) "u@example.com" =
      Except.ok (db0, "Error: Tool not found") :=
  dispatch_unknown_tool env0 db0 "totally_unknown_tool" (Json.obj [])
    "u@example.com" (by decide)

/-- Counterexample for C1.  With 25 persisted messages the assembled context
has 27 entries (one system message, all 25 history messages, the new user
message), not the 22 the claim derives from a 20-message window: the source
applies no window to the history. -/
theorem context_window_counterexample :
    (build_context cfg0 (load_chat_history db25 "A1") "hello").length = 27 ∧
    (load_chat_history db25 "A1").length = 25 ∧
    (27 : Nat) ≠ 22 := by
  exact ⟨rfl, rfl, by decide⟩

/-- C1 as amended.  The assembled transcript is exactly one system message,
then the ENTIRE persisted history of the agent (no trailing window, nothing
dropped), then the new user message last: its length is the full history
length plus 2, the history appears unchanged between the system and user
entries, and the first and last roles are `system` and `user`. -/
theorem build_context_no_truncation (db : DB) (aid : String) (cfg : AgentConfig)
    (u : String) :
    (build_context cfg (load_chat_history db aid) u).length
        = (load_chat_history db aid).length + 2 ∧
    (load_chat_history db aid).length
        = (db.messages.filter (fun m => m.agent_id == aid)).length ∧
    ((build_context cfg (load_chat_history db aid) u).head?).map (fun m => m.role)
        = some "system" ∧
    ((build_context cfg (load_chat_history db aid) u).getLast?).map (fun m => m.role)
        = some "user" ∧
    ((build_context cfg (load_chat_history db aid) u).drop 1).take
        (load_chat_history db aid).length = load_chat_history db aid := by
  refine ⟨?_, ?_, ?_, ?_, ?_⟩
  · simp [build_context]
  · simp [load_chat_history]
  · rfl
  · simp only [build_context, List.getLast?_concat]
    rfl
  · have hdrop : (build_context cfg (load_chat_history db aid) u).drop 1
        = load_chat_history db aid
          ++ [{ role := "user", content := u, tool_call_id := none, tool_calls := [] }] := rfl
    rw [hdrop, List.take_left]

/-- Counterexample for C2.  On total failure of the network boundary the
returned observation is `"HTTP Request Error: <reason>"`; the code performs a
single `requests.request` call, and the failure text mentions neither `3` nor
any attempt count, contradicting the claim that the text reflects exactly 3
attempts. -/
theorem http_retry_text_counterexample :
    execute_http_request (fun _ => Except.error "Connection refused") parse0
        "http://unreachable.example" "GET" "\x7b\x7d" "\x7b\x7d"
      = "HTTP Request Error: Connection refused" ∧
    containsSubstring "HTTP Request Error: Connection refused" "3" = false ∧
    containsSubstring "HTTP Request Error: Connection refused" "attempt" = false := by
  exact ⟨rfl, by decide, by decide⟩

/-- C2 as amended.  `execute_http_request` issues exactly one network attempt
(the result depends only on the outcome of the single request it builds),
that request carries the fixed per-attempt timeout 15; on failure it returns
— never raises — `"HTTP Request Error: <reason>"`, and on success the body is
truncated to 1500 characters. -/
theorem execute_http_request_single_attempt
    (http http' : HttpRequest → Except String (Nat × String))
    (parse : String → Option Json) (url method headers data : String) :
    (the_http_request parse url method headers data).timeout = 15 ∧
    (http (the_http_request parse url method headers data) =
        http' (the_http_request parse url method headers data) →
      execute_http_request http parse url method headers data =
        execute_http_request http' parse url method headers data) ∧
    (∀ e, http (the_http_request parse url method headers data) = Except.error e →
      execute_http_request http parse url method headers data
        = "HTTP Request Error: " ++ e) ∧
    (∀ sc text, http (the_http_request parse url method headers data) = Except.ok (sc, text) →
      execute_http_request http parse url method headers data
        = "HTTP Status: " ++ toString sc ++ "\nResponse Body: " ++ text.take 1500) := by
  refine ⟨rfl, ?_, ?_, ?_⟩
  · intro h
    simp [execute_http_request, h]
  · intro e h
    simp [execute_http_request, h]
  · intro sc text h
    simp [execute_http_request, h]

/-- Witness for C2's amended theorem at a concrete failing request. -/
theorem execute_http_request_single_attempt_witness :
    execute_http_request (fun _ => Except.error "timeout") parse0 "http://x"
        "GET" "\x7b\x7d" "\x7b\x7d" = "HTTP Request Error: timeout" :=
  (execute_http_request_single_attempt (fun _ => Except.error "timeout")
    (fun _ => Except.error "timeout") parse0 "http://x" "GET" "\x7b\x7d" "\x7b\x7d").2.2.1
    "timeout" rfl

/-- C5.  Once a user's `agents_used` has reached the agent limit of their plan
tier, `execute_create_new_agent` returns the limit error and leaves the
database completely unchanged: no agent row is persisted and the count stays
as it was. -/
theorem limit_blocks_agent_creation (db : DB)
    (freshId name personality goal email tools_needed api_secrets : String)
    (st : UserStatus) (hst : get_user_status db email = some st)
    (hlim : ((PLAN_LIMITS.lookup st.plan).getD free_limits).agents ≤ st.agents_used) :
    execute_create_new_agent db freshId name personality goal email tools_needed api_secrets
      = (db, "ERROR: " ++ ("הגעת למגבלת הסוכנים ("
          ++ toString ((PLAN_LIMITS.lookup st.plan).getD free_limits).agents
          ++ "). שדרג חבילה.")) := by
  simp [execute_create_new_agent, check_limits, hst, hlim]

/-- Witness for C5: the spec scenario — plan `free` (limit 1), one agent
already counted; a second creation request fails and the database, agent rows
included, is unchanged. -/
theorem limit_blocks_agent_creation_witness :
    execute_create_new_agent db_free_full "a1b2c3d4e5" "Second" "persona" "goal"
        "u@example.com" "" "\x7b\x7d"
      = (db_free_full, "ERROR: הגעת למגבלת הסוכנים (1). שדרג חבילה.") :=
  limit_blocks_agent_creation db_free_full "a1b2c3d4e5" "Second" "persona" "goal"
    "u@example.com" "" "\x7b\x7d"
    { plan := "free", is_approved := true, agents_used := 1, msgs_used := 0 }
    rfl (by decide)

/-- Counterexample for C9.  The agent-creation capability performs no
validation of `tools_needed` against the registry: a hint naming no
registered capability yields a persisted agent whose `enabled_tools` is
`["foobar"]`, not a subset of the registered names, while the handler still
reports success. -/
theorem enabled_tools_counterexample :
    ((execute_create_new_agent db0 "a1b2c3d4e5" "Rogue" "persona" "goal"
        "u@example.com" "foobar" "\x7b\x7d").1.agents.map
          (fun a => a.config.enabled_tools)) = [["foobar"]] ∧
    REGISTRY_KEYS.contains "foobar" = false ∧
    containsSubstring (execute_create_new_agent db0 "a1b2c3d4e5" "Rogue" "persona"
        "goal" "u@example.com" "foobar" "\x7b\x7d").2 "SUCCESS" = true := by
  exact ⟨rfl, by decide, by decide⟩

/-- C9 as amended.  When the quota check passes, the created agent's
`enabled_tools` is exactly the comma-split, whitespace-stripped `tools_needed`
hint taken verbatim — the handler performs no check that the entries are
registered tool names. -/
theorem enabled_tools_verbatim (db : DB)
    (freshId name personality goal email tools_needed api_secrets : String)
    (hok : (check_limits db email "create_agent").1 = true)
    (hne : tools_needed ≠ "") :
    ∃ row : AgentRow,
      (execute_create_new_agent db freshId name personality goal email
          tools_needed api_secrets).1.agents
        = db.agents.filter (fun a => a.id != freshId) ++ [row] ∧
      row.id = freshId ∧
      row.config.enabled_tools = (pySplit tools_needed ',').map (fun t => pyStrip t) := by
  use { id := freshId, creator := email, name := name,
        config := { id := freshId, name := name,
                    personality := hardened_personality personality, goal := goal,
                    enabled_tools := (pySplit tools_needed ',').map (fun t => pyStrip t),
                    model := "gpt-4o-mini", temperature := (7 : Rat) / 10,
                    icon := "⚡", secrets := "" },
        created_at := "", secrets := api_secrets }
  refine ⟨?_, rfl, rfl⟩
  simp [execute_create_new_agent, save_agent_to_db, hok, hne]

/-- Witness for C9's amended theorem: a mixed hint is split and stripped
verbatim into the stored `enabled_tools`. -/
theorem enabled_tools_verbatim_witness :
    ∃ row : AgentRow,
      (execute_create_new_agent db0 "a1b2c3d4e5" "Worker" "persona" "goal"
          "u@example.com" "make_http_request, get_current_time" "\x7b\x7d").1.agents
        = db0.agents.filter (fun a => a.id != "a1b2c3d4e5") ++ [row] ∧
      row.id = "a1b2c3d4e5" ∧
      row.config.enabled_tools
        = (pySplit "make_http_request, get_current_time" ',').map (fun t => pyStrip t) :=
  enabled_tools_verbatim db0 "a1b2c3d4e5" "Worker" "persona" "goal" "u@example.com"
    "make_http_request, get_current_time" "\x7b\x7d" (by decide) (by decide)

/-! Model-boundary fixtures for the turn-level scenarios. -/

/-- Model boundary that always raises (`openai` exception). -/
def llm_boom : Nat → List ChatMsg → Option (List String) → Except String ModelResponse :=
  fun _ _ _ => Except.error "model unavailable"

/-- Model boundary that answers plainly with no tool calls. -/
def llm_plain : Nat → List ChatMsg → Option (List String) → Except String ModelResponse :=
  fun _ _ _ => Except.ok { content := "hello there", tool_calls := [] }

/-- Model boundary that requests a tool call in EVERY response, forever. -/
def llm_loop : Nat → List ChatMsg → Option (List String) → Except String ModelResponse :=
  fun _ _ _ =>
    Except.ok { content := "STILL REQUESTING TOOLS",
                tool_calls := [{ id := "t1", name := "get_current_time",
                                 arguments := "\x7b\x7d" }] }

/-- Model boundary whose first response requests `make_http_request` with an
unparseable (empty) argument string, hence `safe_json_loads` yields `{}`. -/
def llm_noargs : Nat → List ChatMsg → Option (List String) → Except String ModelResponse :=
  fun k _ _ =>
    if k = 0 then
      Except.ok { content := "",
                  tool_calls := [{ id := "c1", name := "make_http_request",
                                   arguments := "" }] }
    else Except.ok { content := "done", tool_calls := [] }

/-- Model boundary whose first response requests `make_http_request` against
the unreachable target and whose second response summarizes the failure. -/
def llm_http : Nat → List ChatMsg → Option (List String) → Except String ModelResponse :=
  fun k _ _ =>
    if k = 0 then
      Except.ok { content := "",
                  tool_calls := [{ id := "c1", name := "make_http_request",
                                   arguments := "\x7b\x22url\x22: \x22http://unreachable.example\x22\x7d" }] }
    else Except.ok { content := "The site is unreachable.", tool_calls := [] }

/-- Two model boundaries that agree on the first two calls of a turn but
differ from the third call on. -/
def llm_a : Nat → List ChatMsg → Option (List String) → Except String ModelResponse :=
  fun k _ _ =>
    if k = 0 then Except.ok { content := "first", tool_calls := [] }
    else if k = 1 then Except.ok { content := "second", tool_calls := [] }
    else Except.ok { content := "extra", tool_calls := [] }

/-- Companion of `llm_a`: identical on calls 0 and 1, raising from call 2. -/
def llm_b : Nat → List ChatMsg → Option (List String) → Except String ModelResponse :=
  fun k _ _ =>
    if k = 0 then Except.ok { content := "first", tool_calls := [] }
    else if k = 1 then Except.ok { content := "second", tool_calls := [] }
    else Except.error "never reached"

/-! Persistence helper lemmas. -/

/-- Saving an agent row never touches the `messages` table. -/
lemma save_agent_to_db_messages (db : DB) (cfg : AgentConfig)
    (creator secrets freshId : String) :
    (save_agent_to_db db cfg creator secrets freshId).1.messages = db.messages := rfl

/-- The agent-creation handler never touches the `messages` table (the only
`log_message` in its source is dead code after the return on line 254). -/
lemma execute_create_new_agent_messages (db : DB)
    (freshId n p g c t s : String) :
    (execute_create_new_agent db freshId n p g c t s).1.messages = db.messages := by
  simp only [execute_create_new_agent]
  split
  · rfl
  · rfl

/-- The agent-creation keyword binder never changes the `messages` table when
it returns a value. -/
lemma call_create_new_agent_messages (freshId : String) (db : DB) (args : Json)
    (email : String) (db' : DB) (r : String)
    (h : call_create_new_agent freshId db args email = Except.ok (db', r)) :
    db'.messages = db.messages := by
  unfold call_create_new_agent at h
  split at h
  · exact Except.noConfusion h
  split at h
  · exact Except.noConfusion h
  split at h
  · exact Except.noConfusion h
  split at h
  · exact Except.noConfusion h
  split at h
  · exact Except.noConfusion h
  split at h
  · exact Except.noConfusion h
  split at h
  · exact Except.noConfusion h
  rw [Except.ok.injEq] at h
  have h1 := congrArg Prod.fst h
  dsimp only at h1
  rw [← h1]
  apply execute_create_new_agent_messages

/-- A successful dispatch never changes the `messages` table: `get_current_time`
and `make_http_request` return strings without touching the database and the
agent-creation handler only writes `agents`/`users` rows. -/
lemma dispatch_tool_messages (env : Env) (db : DB) (fn : String) (args : Json)
    (email : String) (db' : DB) (r : String)
    (h : dispatch_tool env db fn args email = Except.ok (db', r)) :
    db'.messages = db.messages := by
  unfold dispatch_tool at h
  by_cases hc : fn = "create_new_agent"
  · rw [if_pos hc] at h
    exact call_create_new_agent_messages env.freshId db args email db' r h
  · rw [if_neg hc] at h
    by_cases hr : REGISTRY_KEYS.contains fn = true
    · rw [if_pos hr] at h
      by_cases hg : fn = "get_current_time"
      · rw [if_pos hg] at h
        cases hcall : call_get_current_time env.now args with
        | error e =>
          rw [hcall] at h
          exact Except.noConfusion h
        | ok v =>
          rw [hcall] at h
          simp only [Except.map, Except.ok.injEq, Prod.mk.injEq] at h
          rw [← h.1]
      · rw [if_neg hg] at h
        cases hcall : call_make_http_request env.http env.parse args with
        | error e =>
          rw [hcall] at h
          exact Except.noConfusion h
        | ok v =>
          rw [hcall] at h
          simp only [Except.map, Except.ok.injEq, Prod.mk.injEq] at h
          rw [← h.1]
    · rw [if_neg hr] at h
      simp only [Except.ok.injEq, Prod.mk.injEq] at h
      rw [← h.1]

/-- The tool loop never changes the `messages` table. -/
lemma run_tools_messages (env : Env) (email : String) (tcs : List ToolCall) :
    ∀ (db : DB) (msgs : List ChatMsg) (db2 : DB) (msgs2 : List ChatMsg),
      run_tools env email db msgs tcs = Except.ok (db2, msgs2) →
        db2.messages = db.messages := by
  induction tcs with
  | nil =>
    intro db msgs db2 msgs2 h
    simp only [run_tools, Except.ok.injEq, Prod.mk.injEq] at h
    rw [← h.1]
  | cons tc rest ih =>
    intro db msgs db2 msgs2 h
    unfold run_tools at h
    split at h
    · exact Except.noConfusion h
    · rename_i db' result heq
      have h1 := ih _ _ _ _ h
      have h2 := dispatch_tool_messages env db tc.name
        (safe_json_loads env.parse tc.arguments) email db' result heq
      rw [h1, h2]

/-- `count_role` depends only on the `messages` table. -/
lemma count_role_congr (db db' : DB) (aid r : String)
    (h : db'.messages = db.messages) :
    count_role db' aid r = count_role db aid r := by
  simp [count_role, h]

/-- Logging a row for an agent with some role bumps that count by one. -/
lemma count_role_log_same (db : DB) (aid em r c : String) :
    count_role (log_message db aid em r c) aid r = count_role db aid r + 1 := by
  simp [count_role, log_message, List.filter_append]

/-- Logging a row with a different role leaves a count unchanged. -/
lemma count_role_log_ne (db : DB) (aid em r c r' : String) (h : r ≠ r') :
    count_role (log_message db aid em r c) aid r' = count_role db aid r' := by
  simp [count_role, log_message, List.filter_append, h]

/-- Counterexample for C6.  A turn that passes the quota gate and persists the
user message, but whose model call raises, returns the
`System Critical Error` failure text while persisting ZERO assistant
messages — the claim's "never zero assistant messages" fails on the
model-failure path. -/
theorem assistant_persistence_counterexample :
    (run_agent_turn llm_boom env0 db0 cfg0 [] "hi" "u@example.com" "A1").2
      = "System Critical Error: model unavailable" ∧
    count_role (run_agent_turn llm_boom env0 db0 cfg0 [] "hi" "u@example.com" "A1").1
        "A1" "user" = 1 ∧
    count_role (run_agent_turn llm_boom env0 db0 cfg0 [] "hi" "u@example.com" "A1").1
        "A1" "assistant" = 0 := by
  exact ⟨rfl, rfl, rfl⟩

/-- C6 as amended.  The user message is persisted before the first model call;
when the model calls (and every tool dispatch) return without raising, exactly
one assistant message is persisted for the turn; when the model call raises,
the failure text is returned but NO assistant message is persisted. -/
theorem assistant_persisted_once_on_success
    (llm : Nat → List ChatMsg → Option (List String) → Except String ModelResponse)
    (env : Env) (db : DB) (cfg : AgentConfig) (history : List ChatMsg)
    (u email aid : String) (m : ModelResponse)
    (hchk : (check_limits db email "send_message").1 = true)
    (hllm0 : llm 0 (build_context cfg history u) (active_tools_arg cfg) = Except.ok m)
    (hrest : m.tool_calls = [] ∨
      ∃ db2 msgs2 final,
        run_tools env email (log_message db aid email "user" u)
            (build_context cfg history u ++ [intent_message m]) m.tool_calls
          = Except.ok (db2, msgs2) ∧
        llm 1 msgs2 none = Except.ok final) :
    count_role (run_agent_turn llm env db cfg history u email aid).1 aid "assistant"
        = count_role db aid "assistant" + 1 ∧
    count_role (run_agent_turn llm env db cfg history u email aid).1 aid "user"
        = count_role db aid "user" + 1 := by
  have hua : ("user" : String) ≠ "assistant" := by decide
  have hau : ("assistant" : String) ≠ "user" := by decide
  obtain ⟨mc, mtc⟩ := m
  cases mtc with
  | nil =>
    have hres : run_agent_turn llm env db cfg history u email aid
        = (log_message (log_message db aid email "user" u) aid email "assistant" mc, mc) := by
      simp only [run_agent_turn, hchk, Bool.not_true, Bool.false_eq_true, if_false, hllm0]
    rw [hres]
    constructor
    · rw [count_role_log_same, count_role_log_ne _ _ _ _ _ _ hua]
    · rw [count_role_log_ne _ _ _ _ _ _ hau, count_role_log_same]
  | cons tc rest =>
    rcases hrest with hnil | ⟨db2, msgs2, final, hrt, hllm1⟩
    · exact absurd hnil (by simp)
    have hres : run_agent_turn llm env db cfg history u email aid
        = (log_message db2 aid email "assistant" final.content, final.content) := by
      simp only [run_agent_turn, hchk, Bool.not_true, Bool.false_eq_true, if_false, hllm0,
        hrt, hllm1]
    have hmsg : db2.messages = (log_message db aid email "user" u).messages :=
      run_tools_messages env email (tc :: rest) _ _ _ _ hrt
    rw [hres]
    constructor
    · rw [count_role_log_same,
        count_role_congr _ _ _ _ hmsg,
        count_role_log_ne _ _ _ _ _ _ hua]
    · rw [count_role_log_ne _ _ _ _ _ _ hau,
        count_role_congr _ _ _ _ hmsg,
        count_role_log_same]

/-- Witness for C6's amended theorem: a plain no-tools turn persists exactly
one user and one assistant row. -/
theorem assistant_persisted_once_on_success_witness :
    count_role (run_agent_turn llm_plain env0 db0 cfg0 [] "hi" "u@example.com" "A1").1
        "A1" "assistant" = count_role db0 "A1" "assistant" + 1 ∧
    count_role (run_agent_turn llm_plain env0 db0 cfg0 [] "hi" "u@example.com" "A1").1
        "A1" "user" = count_role db0 "A1" "user" + 1 :=
  assistant_persisted_once_on_success llm_plain env0 db0 cfg0 [] "hi" "u@example.com"
    "A1" { content := "hello there", tool_calls := [] } rfl rfl (Or.inl rfl)

/-- Counterexample for C8.  There is no iteration cap and no `Failed`
transition: against a model that requests a tool call in EVERY response, the
turn still ends after the second model call with that response's content as
the final answer (its tool requests are ignored), rather than cycling up to a
5-iteration cap and failing. -/
theorem iteration_cap_counterexample :
    (run_agent_turn llm_loop env0 db0 cfg0 [] "hi" "u@example.com" "A1").2
      = "STILL REQUESTING TOOLS" ∧
    count_role (run_agent_turn llm_loop env0 db0 cfg0 [] "hi" "u@example.com" "A1").1
        "A1" "assistant" = 1 := by
  exact ⟨rfl, rfl⟩

/-- C8 as amended.  A turn performs at most two model calls: the run depends
only on the model boundary's behaviour at call indices 0 and 1, so any two
model boundaries agreeing there produce identical turns — there is no
Reasoning/Acting cycling beyond the single tool phase and no iteration-cap
machinery. -/
theorem run_agent_turn_two_model_calls
    (llm llm' : Nat → List ChatMsg → Option (List String) → Except String ModelResponse)
    (env : Env) (db : DB) (cfg : AgentConfig) (history : List ChatMsg)
    (u email aid : String)
    (h0 : ∀ msgs t, llm 0 msgs t = llm' 0 msgs t)
    (h1 : ∀ msgs t, llm 1 msgs t = llm' 1 msgs t) :
    run_agent_turn llm env db cfg history u email aid
      = run_agent_turn llm' env db cfg history u email aid := by
  simp only [run_agent_turn, h0, h1]

/-- Witness for C8's amended theorem: two boundaries that agree on calls 0
and 1 but differ from call 2 on give identical turns. -/
theorem run_agent_turn_two_model_calls_witness :
    run_agent_turn llm_a env0 db0 cfg0 [] "hi" "u@example.com" "A1"
      = run_agent_turn llm_b env0 db0 cfg0 [] "hi" "u@example.com" "A1" :=
  run_agent_turn_two_model_calls llm_a llm_b env0 db0 cfg0 [] "hi" "u@example.com" "A1"
    (fun _ _ => rfl) (fun _ _ => rfl)

/-- Counterexample for C3.  A `make_http_request` call whose arguments lack
the required `url` field is NOT rejected with an `InvalidArguments` failure
naming the field: the binding error aborts the entire turn with a
`System Critical Error` message. -/
theorem args_validation_counterexample :
    (run_agent_turn llm_noargs env0 db0 cfg0 [] "call the api" "u@example.com" "A1").2
      = "System Critical Error: execute_http_request() missing 1 required positional argument: url" ∧
    containsSubstring
        (run_agent_turn llm_noargs env0 db0 cfg0 [] "call the api" "u@example.com" "A1").2
        "InvalidArguments" = false := by
  exact ⟨rfl, by decide⟩

/-- C3 as amended.  No schema validation precedes dispatch: a tool call whose
argument object lacks a required field (here `url` of `make_http_request`)
raises at keyword binding — the handler body never runs — and the exception
aborts the whole turn, which returns the `System Critical Error` text instead
of continuing with an `InvalidArguments` observation. -/
theorem dispatch_missing_arg_aborts_turn
    (llm : Nat → List ChatMsg → Option (List String) → Except String ModelResponse)
    (env : Env) (db : DB) (cfg : AgentConfig) (history : List ChatMsg)
    (u email aid c0 tid astr : String) (fields : List (String × Json))
    (hchk : (check_limits db email "send_message").1 = true)
    (hllm0 : llm 0 (build_context cfg history u) (active_tools_arg cfg)
      = Except.ok { content := c0,
                    tool_calls := [{ id := tid, name := "make_http_request",
                                     arguments := astr }] })
    (hargs : safe_json_loads env.parse astr = Json.obj fields)
    (hurl : fields.lookup "url" = none) :
    run_agent_turn llm env db cfg history u email aid
      = (log_message db aid email "user" u,
         "System Critical Error: execute_http_request() missing 1 required positional argument: url") := by
  have hd : dispatch_tool env (log_message db aid email "user" u) "make_http_request"
      (safe_json_loads env.parse astr) email
      = Except.error "execute_http_request() missing 1 required positional argument: url" := by
    rw [hargs]
    simp [dispatch_tool, call_make_http_request, asKwargs, requiredStr, hurl,
      REGISTRY_KEYS, Except.map]
  simp only [run_agent_turn, hchk, Bool.not_true, Bool.false_eq_true, if_false, hllm0,
    run_tools, hd]
  rfl

/-- Witness for C3's amended theorem at the concrete empty-arguments call. -/
theorem dispatch_missing_arg_aborts_turn_witness :
    run_agent_turn llm_noargs env0 db0 cfg0 [] "ping" "u@example.com" "A1"
      = (log_message db0 "A1" "u@example.com" "user" "ping",
         "System Critical Error: execute_http_request() missing 1 required positional argument: url") :=
  dispatch_missing_arg_aborts_turn llm_noargs env0 db0 cfg0 [] "ping" "u@example.com"
    "A1" "" "c1" "" [] rfl rfl rfl rfl

/-- C4.  A failing network capability does not end the turn: the raised
network error is caught inside the handler and converted into the
`"HTTP Request Error: ..."` observation, which is appended to the in-turn
transcript as a tool-role entry; control returns to the model (second
reasoning call), whose content becomes the turn's final answer and is
persisted as the assistant message — the turn neither fails nor propagates
the exception. -/
theorem tool_failure_recovered
    (llm : Nat → List ChatMsg → Option (List String) → Except String ModelResponse)
    (env : Env) (db : DB) (cfg : AgentConfig) (history : List ChatMsg)
    (u email aid c0 tid astr url e : String) (final : ModelResponse)
    (hchk : (check_limits db email "send_message").1 = true)
    (hllm0 : llm 0 (build_context cfg history u) (active_tools_arg cfg)
      = Except.ok { content := c0,
                    tool_calls := [{ id := tid, name := "make_http_request",
                                     arguments := astr }] })
    (hargs : safe_json_loads env.parse astr = Json.obj [("url", Json.str url)])
    (hhttp : env.http (the_http_request env.parse url "GET" "\x7b\x7d" "\x7b\x7d")
      = Except.error e)
    (hllm1 : llm 1 (build_context cfg history u
        ++ [intent_message { content := c0,
                             tool_calls := [{ id := tid, name := "make_http_request",
                                              arguments := astr }] }]
        ++ [{ role := "tool", content := "HTTP Request Error: " ++ e,
              tool_call_id := some tid, tool_calls := [] }]) none
      = Except.ok final) :
    run_agent_turn llm env db cfg history u email aid
      = (log_message (log_message db aid email "user" u) aid email "assistant"
           final.content,
         final.content) := by
  have hd : dispatch_tool env (log_message db aid email "user" u) "make_http_request"
      (safe_json_loads env.parse astr) email
      = Except.ok (log_message db aid email "user" u, "HTTP Request Error: " ++ e) := by
    have h1 : (("method" : String) == "url") = false := by decide
    have h2 : (("headers" : String) == "url") = false := by decide
    have h3 : (("data" : String) == "url") = false := by decide
    rw [hargs]
    simp [dispatch_tool, call_make_http_request, asKwargs, requiredStr, optionalStr,
      execute_http_request, hhttp, REGISTRY_KEYS, List.lookup, h1, h2, h3, Except.map]
  simp only [run_agent_turn, hchk, Bool.not_true, Bool.false_eq_true, if_false, hllm0,
    run_tools, hd, hllm1]

/-- Witness for C4: the spec scenario — the network capability invoked
against an unreachable target; the turn ends with the model's summary as the
persisted assistant answer. -/
theorem tool_failure_recovered_witness :
    run_agent_turn llm_http env0 db0 cfg0 [] "check the site" "u@example.com" "A1"
      = (log_message (log_message db0 "A1" "u@example.com" "user" "check the site")
           "A1" "u@example.com" "assistant" "The site is unreachable.",
         "The site is unreachable.") :=
  tool_failure_recovered llm_http env0 db0 cfg0 [] "check the site" "u@example.com"
    "A1" "" "c1" "\x7b\x22url\x22: \x22http://unreachable.example\x22\x7d"
    "http://unreachable.example" "Connection refused"
    { content := "The site is unreachable.", tool_calls := [] }
    rfl rfl rfl rfl rfl

end Platform
